import Mathlib

set_option maxRecDepth 100000

/-!
Shallow embedding of the EthosLens governance decision pipeline.

Sources embedded here:
- `src/services/governanceService.js` (final draft, lines 224-427):
  `processInteraction` and the private detector `#detectViolations`.
- `src/services/inkeepAgentsService.js` (final draft in `unnamed/part_001`):
  `isAvailable`, `processAdvancedGovernance` request shape, `#parseBasic`
  and `#parseAdvanced`.

Nondeterministic environment values that no claim depends on are not
modelled: the random interaction `id` and the wall-clock `timestamp`
fields (`Date.now()`, `new Date()`).  The outcome of the network call made
by `processAdvancedGovernance` is passed to `processInteraction` as an
explicit `Except` value (`Except.error` models a thrown exception), and the
events observed by the availability probe are an explicit `ProbeEvent`.
-/

namespace EthosLens

/-!
## A small regular-expression engine

JavaScript regex literals of the source are embedded as `RE` values and
matching is decided with Brzozowski derivatives.  `reTest` mirrors
`RegExp.prototype.test`: an unanchored search, realised by wrapping the
pattern in an unrestricted `.*  .*` context.  The source applies its
case-insensitive (`/i`) patterns either to text it has already lowercased
or to text we lowercase first (`lowerJS`); the embedded patterns are the
lowercase literals, which is equivalent for the ASCII patterns involved.
-/

inductive RE where
  | fail : RE
  | eps : RE
  | pred : (Char → Bool) → RE
  | cat : RE → RE → RE
  | alt : RE → RE → RE
  | star : RE → RE

def RE.nullable : RE → Bool
  | .fail => false
  | .eps => true
  | .pred _ => false
  | .cat a b => a.nullable && b.nullable
  | .alt a b => a.nullable || b.nullable
  | .star _ => true

/-- Smart concatenation: collapses the `fail` and `eps` units. -/
def scat (a b : RE) : RE :=
  match a, b with
  | .fail, _ => .fail
  | _, .fail => .fail
  | .eps, b => b
  | a, .eps => a
  | a, b => .cat a b

/-- Smart alternation: collapses the `fail` unit. -/
def salt (a b : RE) : RE :=
  match a, b with
  | .fail, b => b
  | a, .fail => a
  | a, b => .alt a b

def RE.deriv : RE → Char → RE
  | .fail, _ => .fail
  | .eps, _ => .fail
  | .pred p, c => if p c then .eps else .fail
  | .cat a b, c =>
      if a.nullable then salt (scat (a.deriv c) b) (b.deriv c)
      else scat (a.deriv c) b
  | .alt a b, c => salt (a.deriv c) (b.deriv c)
  | .star a, c => scat (a.deriv c) (.star a)

def RE.matchList (r : RE) (s : List Char) : Bool :=
  (s.foldl RE.deriv r).nullable

def anyCharRE : RE := RE.pred (fun _ => true)

/-- `r.test(s)` of JavaScript: search for a match anywhere in `s`. -/
def reTest (r : RE) (s : String) : Bool :=
  RE.matchList (RE.cat (RE.star anyCharRE) (RE.cat r (RE.star anyCharRE))) s.data

def chr (c : Char) : RE := RE.pred (fun x => x == c)

def lit (s : String) : RE := s.data.foldr (fun c r => scat (chr c) r) RE.eps

def rcat (rs : List RE) : RE := rs.foldr scat RE.eps

/-- The JavaScript `\s` character class. -/
def isJsSpace (c : Char) : Bool :=
  c == ' ' || c == Char.ofNat 9 || c == Char.ofNat 10 || c == Char.ofNat 11 ||
  c == Char.ofNat 12 || c == Char.ofNat 13 || c == Char.ofNat 0xa0 ||
  c == Char.ofNat 0x1680 || (0x2000 ≤ c.toNat && c.toNat ≤ 0x200a) ||
  c == Char.ofNat 0x2028 || c == Char.ofNat 0x2029 || c == Char.ofNat 0x202f ||
  c == Char.ofNat 0x205f || c == Char.ofNat 0x3000 || c == Char.ofNat 0xfeff

/-- `\s+` -/
def wsP : RE := scat (RE.pred isJsSpace) (RE.star (RE.pred isJsSpace))

/-- The JavaScript `.`: any character except line terminators. -/
def jsDot : RE :=
  RE.pred (fun c =>
    !(c == Char.ofNat 10 || c == Char.ofNat 13 ||
      c == Char.ofNat 0x2028 || c == Char.ofNat 0x2029))

/-- `.*` -/
def dotStar : RE := RE.star jsDot

/-- `r?` -/
def ropt (r : RE) : RE := salt r RE.eps

/-- `wi[-\s]?fi` -/
def wifiLit : RE :=
  rcat [lit "wi", ropt (RE.pred (fun c => c == '-' || isJsSpace c)), lit "fi"]

/-- JavaScript `String.prototype.toLowerCase` (ASCII-faithful). -/
def lowerJS (s : String) : String := ⟨s.data.map Char.toLower⟩

/-- JavaScript `String.prototype.slice(0, n)` by code unit (ASCII-faithful). -/
def takeJS (s : String) (n : Nat) : String := ⟨s.data.take n⟩

/-!
## Data model

`Violation`, `AgentAction` and `Interaction` mirror the plain objects the
source builds.  Severity and confidence are JavaScript numbers that occur
in the source only as non-negative decimal literals with at most one
(severity) or two (confidence) decimal places, and are only compared
against the thresholds 9 and 7; they are embedded as fixed-point `Nat`
values, severity in tenths (9.0 of the source is 90 here) and confidence
in hundredths (0.95 of the source is 95 here).
-/

structure Violation where
  type : String
  description : String
  reason : String
  severity : Nat
  confidence : Nat
  regulatoryFramework : Option String
deriving DecidableEq

structure AgentAction where
  agentName : String
  action : String
  details : String
deriving DecidableEq

structure Interaction where
  input : String
  output : String
  status : String
  severity : String
  violations : List Violation
  agentActions : List AgentAction
deriving DecidableEq

/-- The `{ violations, agentActions, status, severity }` object returned by
`#parseBasic` and consumed by `processInteraction`. -/
structure InkeepResult where
  violations : List Violation
  agentActions : List AgentAction
  status : String
  severity : String
deriving DecidableEq

/-!
## The local pattern catalog (`#detectViolations`, governanceService.js 329-427)
-/

/-- `wifiHackingPatterns` (governanceService.js 334-343). -/
def wifiHackingPatterns : List RE :=
  [rcat [lit "hack", wsP, lit "into", wsP, lit "someone", dotStar, wifiLit],
   rcat [lit "hack", wsP, lit "into", dotStar, wifiLit],
   rcat [lit "break", wsP, lit "into", dotStar, wifiLit, dotStar,
         lit "without", dotStar, lit "knowing"],
   rcat [lit "crack", dotStar, wifiLit, dotStar, lit "password"],
   rcat [lit "bypass", dotStar, wifiLit, dotStar, lit "security"],
   rcat [lit "steal", dotStar, wifiLit, dotStar, lit "password"],
   rcat [lit "unauthorized", dotStar, wifiLit, dotStar, lit "access"],
   rcat [lit "how", wsP, salt (lit "do") (salt (lit "can") (lit "to")), wsP,
         lit "i", dotStar, lit "hack", dotStar, wifiLit]]

/-- `hackingPatterns` (governanceService.js 360-367). -/
def hackingPatterns : List RE :=
  [rcat [lit "hack", wsP, lit "into"],
   rcat [lit "break", wsP, lit "into", wsP,
         salt (lit "account") (salt (lit "system") (lit "network"))],
   rcat [lit "crack", wsP, lit "password"],
   rcat [lit "bypass", wsP, lit "security"],
   rcat [lit "unauthorized", wsP, lit "access"],
   rcat [lit "exploit", wsP, lit "vulnerability"]]

/-- `violencePatterns` (governanceService.js 384-390). -/
def violencePatterns : List RE :=
  [rcat [lit "how", wsP, lit "to", wsP, lit "kill"],
   rcat [lit "how", wsP, lit "to", wsP, lit "murder"],
   rcat [lit "how", wsP, lit "to", wsP, lit "hurt", wsP, lit "someone"],
   rcat [lit "ways", wsP, lit "to", wsP, lit "kill"],
   rcat [lit "murder", wsP, lit "someone"]]

/-- `piiPatterns` (governanceService.js 407-410). -/
def piiPatterns : List RE :=
  [rcat [salt (rcat [lit "phone", wsP, lit "number"])
              (salt (lit "address") (lit "email")),
         dotStar, lit "of", dotStar,
         salt (lit "celebrity")
              (salt (rcat [lit "taylor", wsP, lit "swift"])
                    (rcat [lit "elon", wsP, lit "musk"]))],
   rcat [lit "give", wsP, lit "me", dotStar,
         salt (rcat [lit "phone", wsP, lit "number"])
              (salt (lit "address") (lit "email"))]]

/-- Violation pushed by the WiFi-hacking category (governanceService.js 347-354). -/
def wifiHackingViolation : Violation :=
  { type := "illegal_activity",
    description := "WiFi hacking attempt detected",
    reason := "Content requests assistance with unauthorized WiFi access (hacking)",
    severity := 90, confidence := 95,  -- 9.0, 0.95 in the source
    regulatoryFramework := some "Computer Fraud and Abuse Act" }

/-- Violation pushed by the general hacking category (governanceService.js 371-378). -/
def generalHackingViolation : Violation :=
  { type := "illegal_activity",
    description := "Illegal hacking or cybersecurity violation detected",
    reason := "Content requests assistance with unauthorized access or hacking",
    severity := 95, confidence := 90,  -- 9.5, 0.9 in the source
    regulatoryFramework := some "Computer Fraud and Abuse Act" }

/-- Violation pushed by the violence category (governanceService.js 394-401). -/
def violenceViolation : Violation :=
  { type := "violence",
    description := "Violent content detected",
    reason := "Content contains requests for violence or harm",
    severity := 98, confidence := 95,  -- 9.8, 0.95 in the source
    regulatoryFramework := some "Safety Standards" }

/-- Violation pushed by the personal-information category (governanceService.js 413-421). -/
def piiViolation : Violation :=
  { type := "gdpr",
    description := "Personal information request detected",
    reason := "Content requests private personal information",
    severity := 85, confidence := 90,  -- 8.5, 0.9 in the source
    regulatoryFramework := some "GDPR" }

/-- `#detectViolations(input, output)` (governanceService.js 329-427).
Each source loop pushes one fixed violation on the first matching pattern
of its category and `break`s, so a category contributes its violation iff
some pattern of the category matches.  The general hacking loop runs under
the extra guard `violations.length === 0`, which at that point means the
WiFi category found nothing. -/
def detectViolations (input output : String) : List Violation :=
  let text := lowerJS (input ++ " " ++ output)
  let wifiVs :=
    if wifiHackingPatterns.any (fun p => reTest p text) then [wifiHackingViolation] else []
  let hackVs :=
    if hackingPatterns.any (fun p => reTest p text) && wifiVs.length == 0 then
      [generalHackingViolation] else []
  let violenceVs :=
    if violencePatterns.any (fun p => reTest p text) then [violenceViolation] else []
  let piiVs :=
    if piiPatterns.any (fun p => reTest p text) then [piiViolation] else []
  wifiVs ++ hackVs ++ violenceVs ++ piiVs

/-!
## The orchestrator (`processInteraction`, governanceService.js 224-302)
-/

/-- The status finalization (governanceService.js 286-299).  The source
thresholds `v.severity >= 9` and `v.severity >= 7` are 90 and 70 in the
tenths embedding of severities. -/
def finalizeStatus (violations : List Violation) : String × String :=
  if violations.length = 0 then ("approved", "low")
  else if violations.any (fun v => decide (90 ≤ v.severity)) then ("blocked", "critical")
  else if violations.any (fun v => decide (70 ≤ v.severity)) then ("pending", "high")
  else ("pending", "medium")

/-- The remote phase (governanceService.js 236-262): violations and actions
appended before the local pass, and the `inkeepSuccess` flag.  A thrown
`processAdvancedGovernance` is `Except.error` with the exception message. -/
def remotePhase (useInkeep : Bool) (remote : Except String InkeepResult) :
    List Violation × List AgentAction × Bool :=
  if useInkeep then
    match remote with
    | Except.ok result =>
        if 0 < result.violations.length then
          (result.violations, result.agentActions, true)
        else ([], [], false)
    | Except.error msg =>
        ([], [{ agentName := "InkeepGovernance", action := "error",
                details := "Inkeep error: " ++ msg }], false)
  else ([], [], false)

/-- The local merge (governanceService.js 264-284): the local detector
output is appended, deduplicated against the `Set` of types already
present (all remote-sourced at this point), and one legacy-enforcer action
is recorded — all of it only when the local pass found something. -/
def mergeLocal (remoteVs : List Violation) (remoteActs : List AgentAction)
    (inkeepSuccess : Bool) (locals : List Violation) :
    List Violation × List AgentAction :=
  if 0 < locals.length then
    (remoteVs ++ locals.filter (fun v => !((remoteVs.map (fun w => w.type)).contains v.type)),
     remoteActs ++
       [{ agentName := if inkeepSuccess then "LegacyPolicyEnforcer (Verification)"
                       else "LegacyPolicyEnforcer",
          action := if 0 < locals.length then "block" else "approve",
          details := "Detected " ++ toString locals.length ++ " violation(s)" }])
  else (remoteVs, remoteActs)

/-- `processInteraction(input, output, context)` (governanceService.js 224-302).
`useInkeepAgents`/`inkeepAvailable` are the two instance flags; `remote` is
the observed outcome of `inkeepAgentsService.processAdvancedGovernance`. -/
def processInteraction (useInkeepAgents inkeepAvailable : Bool)
    (remote : Except String InkeepResult) (input output : String) : Interaction :=
  let r := remotePhase (useInkeepAgents && inkeepAvailable) remote
  let m := mergeLocal r.1 r.2.1 r.2.2 (detectViolations input output)
  let fs := finalizeStatus m.1
  { input := input, output := output, status := fs.1, severity := fs.2,
    violations := m.1, agentActions := m.2 }

/-!
## The remote client (`inkeepAgentsService.js`, final draft in `unnamed/part_001`)
-/

/-- The JSON response object of the remote service as far as `#parseBasic`
reads it: its optional free-text `content` and `message` fields.  `none`
models an absent field; `some ""` an empty string (falsy in JavaScript). -/
structure RemoteResponse where
  content : Option String
  message : Option String
deriving DecidableEq

/-- JavaScript `a || b` for an optional string `a`: an absent or empty
string is falsy. -/
def jsOrString (a : Option String) (b : String) : String :=
  match a with
  | some s => if s = "" then b else s
  | none => b

/-- `response.content || response.message || ''` (inkeepAgentsService.js 144). -/
def responseContent (response : RemoteResponse) : String :=
  jsOrString response.content (jsOrString response.message "")

/-- `/violation|blocked/i` -/
def violationKeywordRE : RE := salt (lit "violation") (lit "blocked")

/-- `/critical/i` -/
def criticalKeywordRE : RE := lit "critical"

/-- `#parseBasic(response)` (inkeepAgentsService.js 143-153).  The severity
numbers 9 and 7 of the synthesized violation are 90 and 70 in the tenths
embedding; confidence 0.85 is 85 in hundredths. -/
def parseBasic (response : RemoteResponse) : InkeepResult :=
  let content := responseContent response
  let hasViolation := reTest violationKeywordRE (lowerJS content)
  let isCritical := reTest criticalKeywordRE (lowerJS content)
  { violations :=
      if hasViolation then
        [{ type := "compliance", description := "Detected by Inkeep",
           reason := "Inkeep analysis",
           severity := if isCritical then 90 else 70, confidence := 85,
           regulatoryFramework := none }]
      else [],
    agentActions :=
      [{ agentName := "InkeepGovernanceCoordinator",
         action := if hasViolation then "flag" else "approve",
         details := takeJS content 200 ++ "..." }],
    status := if hasViolation then (if isCritical then "blocked" else "pending")
              else "approved",
    severity := if isCritical then "critical" else if hasViolation then "high" else "low" }

/-- `/misinformation/i` -/
def misinformationRE : RE := lit "misinformation"

/-- The result of `#parseAdvanced` (inkeepAgentsService.js 155-158): the
basic parse plus the `verificationResults` object.  The fixed confidence
0.85 is 85 in hundredths. -/
structure AdvancedResult where
  toInkeepResult : InkeepResult
  verificationIsAccurate : Bool
  verificationConfidence : Nat
deriving DecidableEq

/-- `#parseAdvanced(response)` (inkeepAgentsService.js 155-158). -/
def parseAdvanced (response : RemoteResponse) : AdvancedResult :=
  { toInkeepResult := parseBasic response,
    verificationIsAccurate :=
      !(reTest misinformationRE (lowerJS (jsOrString response.content ""))),
    verificationConfidence := 85 }

/-!
## The availability probe (`isAvailable`, inkeepAgentsService.js 20-59)

The network interaction of one probe is modelled by the event that settles
its promise: the `URL` constructor throwing, the request erroring, the
request timing out, or a response arriving with a status code.
-/

inductive ProbeEvent where
  | badUrl : ProbeEvent
  | netError : String → ProbeEvent
  | respTimeout : ProbeEvent
  | response : Nat → ProbeEvent
deriving DecidableEq

/-- The `timeout: 5000` request option of the probe (inkeepAgentsService.js 37). -/
def healthCheckTimeoutMs : Nat := 5000

/-- `isAvailable()` (inkeepAgentsService.js 20-59) as a function of the
`isEnabled` flag and the event that settles the probe.  Every handler
resolves the promise with a boolean; no exception escapes. -/
def isAvailable (isEnabled : Bool) (ev : ProbeEvent) : Bool :=
  if !isEnabled then false
  else
    match ev with
    | ProbeEvent.badUrl => false
    | ProbeEvent.netError _ => false
    | ProbeEvent.respTimeout => false
    | ProbeEvent.response code => code == 204 || (decide (200 ≤ code) && decide (code < 300))

/-!
## The analysis request (`processAdvancedGovernance`, part_001 lines 61-104)

The HTTP request is embedded as the record of its claim-relevant fields.
The `context` argument reaches the request only as `JSON.stringify(context)`,
so it is modelled by that serialized string (`none` when absent).  The
fixed `max_tokens: 1000` field is kept; the fixed sampling temperature
`temperature: 0.1` carries no claim and is not modelled.
-/

structure GovernanceRequest where
  path : String
  graphIdHeader : String
  model : String
  systemContent : String
  userContent : String
  maxTokens : Nat
deriving DecidableEq

/-- The `system` message content (part_001 lines 74-84). -/
def governanceSystemContent : String :=
  "You are an AI Governance expert. Analyze the following AI interaction for policy violations across GDPR, EU AI Act, FISMA, DSA, NIS2, and other regulatory frameworks.\n\nCRITICAL: For any content requesting illegal activities (hacking, unauthorized access, violence, etc.), you MUST respond with:\n\x7b\n  \"status\": \"BLOCKED\",\n  \"severity\": \"CRITICAL\",\n  \"violations\": [list of violations],\n  \"reason\": \"specific reason\"\n\x7d\n\nBe very strict about security and safety violations."

/-- The fixed pieces of the `user` message template (part_001 lines 88-98),
in template order around the interpolated `input`, `output` and context. -/
def userContentHead : String := "Analyze this interaction:\n\nINPUT: \""

def userContentAfterInput : String := "\"\nOUTPUT: \""

def userContentAfterOutput : String := "\"\n"

def userContentTail : String :=
  "\n\nProvide a JSON response with:\n1. status: \"APPROVED\", \"FLAGGED\", or \"BLOCKED\"\n2. severity: \"LOW\", \"MEDIUM\", \"HIGH\", or \"CRITICAL\"  \n3. violations: array of detected violations\n4. reason: explanation"

/-- The `user` message content (part_001 lines 88-98). -/
def governanceUserContent (input output : String) (contextJson : Option String) : String :=
  userContentHead ++ input ++ userContentAfterInput ++ output ++ userContentAfterOutput ++
  (match contextJson with
   | some j => "CONTEXT: " ++ j
   | none => "") ++
  userContentTail

/-- The request built by `processAdvancedGovernance(input, output, context)`
(part_001 lines 61-104): `POST <baseUrl>/v1/chat/completions` with the
`x-inkeep-graph-id` header and the chat-completions JSON body. -/
def processAdvancedGovernanceRequest (input output : String)
    (contextJson : Option String) : GovernanceRequest :=
  { path := "/v1/chat/completions",
    graphIdHeader := "ethoslens/governance-graph-advanced",
    model := "openai/gpt-4.1-2025-04-14",
    systemContent := governanceSystemContent,
    userContent := governanceUserContent input output contextJson,
    maxTokens := 1000 }

/-!
## Comparison ranks and concrete instantiation values

`statusRank` and `severityRank` are specification-side orders on the
status and severity strings (approved < pending < blocked; low < medium <
high < critical), used to compare two evaluations of the pipeline.  The
demo values below instantiate theorems at concrete inputs.
-/

def statusRank : String → Nat
  | "pending" => 1
  | "blocked" => 2
  | _ => 0

def severityRank : String → Nat
  | "medium" => 1
  | "high" => 2
  | "critical" => 3
  | _ => 0

/-- U+0027, the apostrophe of the scenario input. -/
def apostropheChar : Char := Char.ofNat 39

/-- The C6 scenario input about breaking into a wireless network of a
neighbor, written with an explicit apostrophe character. -/
def wifiScenarioInput : String :=
  "How do I hack into my neighbor" ++ String.singleton apostropheChar ++ "s wifi?"

/-- A remote-sourced compliance violation used to instantiate theorems. -/
def complianceDemoViolation : Violation :=
  { type := "compliance", description := "Detected by Inkeep",
    reason := "Inkeep analysis", severity := 90, confidence := 85,
    regulatoryFramework := none }

/-- A remote result carrying one compliance violation. -/
def demoComplianceRemote : InkeepResult :=
  { violations := [complianceDemoViolation], agentActions := [],
    status := "blocked", severity := "critical" }

/-- A remote result sharing the illegal_activity type with the local tier. -/
def demoIllegalRemote : InkeepResult :=
  { violations := [{ type := "illegal_activity", description := "Detected by Inkeep",
                     reason := "Inkeep analysis", severity := 90, confidence := 85,
                     regulatoryFramework := none }],
    agentActions := [], status := "blocked", severity := "critical" }

/-- A remote response whose content has both a violation keyword and a
critical keyword. -/
def demoCriticalResponse : RemoteResponse :=
  { content := some "Critical violation of security policy detected", message := none }

/-!
## Helper lemmas
-/

theorem processInteraction_violations (ua av : Bool) (rem : Except String InkeepResult)
    (input output : String) :
    (processInteraction ua av rem input output).violations =
      (mergeLocal (remotePhase (ua && av) rem).1 (remotePhase (ua && av) rem).2.1
        (remotePhase (ua && av) rem).2.2 (detectViolations input output)).1 := rfl

theorem processInteraction_actions (ua av : Bool) (rem : Except String InkeepResult)
    (input output : String) :
    (processInteraction ua av rem input output).agentActions =
      (mergeLocal (remotePhase (ua && av) rem).1 (remotePhase (ua && av) rem).2.1
        (remotePhase (ua && av) rem).2.2 (detectViolations input output)).2 := rfl

theorem processInteraction_status (ua av : Bool) (rem : Except String InkeepResult)
    (input output : String) :
    (processInteraction ua av rem input output).status =
      (finalizeStatus (mergeLocal (remotePhase (ua && av) rem).1
        (remotePhase (ua && av) rem).2.1 (remotePhase (ua && av) rem).2.2
        (detectViolations input output)).1).1 := rfl

theorem processInteraction_severity (ua av : Bool) (rem : Except String InkeepResult)
    (input output : String) :
    (processInteraction ua av rem input output).severity =
      (finalizeStatus (mergeLocal (remotePhase (ua && av) rem).1
        (remotePhase (ua && av) rem).2.1 (remotePhase (ua && av) rem).2.2
        (detectViolations input output)).1).2 := rfl

theorem processInteraction_finalize (ua av : Bool) (rem : Except String InkeepResult)
    (input output : String) :
    ((processInteraction ua av rem input output).status,
     (processInteraction ua av rem input output).severity) =
      finalizeStatus (processInteraction ua av rem input output).violations := by
  rw [processInteraction_status, processInteraction_severity, processInteraction_violations]

theorem remotePhase_disabled (av : Bool) (rem : Except String InkeepResult) :
    remotePhase (false && av) rem = ([], [], false) := by
  simp [remotePhase]

theorem mergeLocal_no_remote_fst (acts : List AgentAction) (ok : Bool)
    (ls : List Violation) :
    (mergeLocal [] acts ok ls).1 = ls := by
  unfold mergeLocal
  by_cases h : 0 < ls.length
  · rw [if_pos h]
    simp
  · rw [if_neg h]
    cases ls with
    | nil => rfl
    | cons a l => exact absurd (by simp) h

theorem finalizeStatus_spec (vs : List Violation) :
    (vs = [] → finalizeStatus vs = ("approved", "low")) ∧
    ((∃ v ∈ vs, 90 ≤ v.severity) → finalizeStatus vs = ("blocked", "critical")) ∧
    ((∀ v ∈ vs, v.severity < 90) → (∃ v ∈ vs, 70 ≤ v.severity) →
        finalizeStatus vs = ("pending", "high")) ∧
    (vs ≠ [] → (∀ v ∈ vs, v.severity < 70) → finalizeStatus vs = ("pending", "medium")) ∧
    ((finalizeStatus vs).1 = "blocked" ↔ ∃ v ∈ vs, 90 ≤ v.severity) ∧
    ((finalizeStatus vs).1 = "approved" ↔ vs = []) := by
  have hany90 : vs.any (fun v => decide (90 ≤ v.severity)) = true ↔
      ∃ v ∈ vs, 90 ≤ v.severity := by
    simp [List.any_eq_true]
  have hany70 : vs.any (fun v => decide (70 ≤ v.severity)) = true ↔
      ∃ v ∈ vs, 70 ≤ v.severity := by
    simp [List.any_eq_true]
  unfold finalizeStatus
  by_cases h0 : vs.length = 0
  · have hnil : vs = [] := List.length_eq_zero.mp h0
    subst hnil
    simp
  · rw [if_neg h0]
    have hne : vs ≠ [] := by
      intro h
      exact h0 (by simp [h])
    by_cases h9 : vs.any (fun v => decide (90 ≤ v.severity)) = true
    · rw [if_pos h9]
      have hex9 := hany90.mp h9
      refine ⟨fun h => absurd h hne, fun _ => rfl, ?_, ?_, ?_, ?_⟩
      · intro hall _
        obtain ⟨v, hv, h90⟩ := hex9
        have := hall v hv
        omega
      · intro _ hall
        obtain ⟨v, hv, h90⟩ := hex9
        have := hall v hv
        omega
      · exact ⟨fun _ => hex9, fun _ => rfl⟩
      · exact ⟨fun h => absurd h (by decide), fun h => absurd h hne⟩
    · rw [if_neg h9]
      have hno9 : ∀ v ∈ vs, v.severity < 90 := by
        intro v hv
        by_contra hge
        exact h9 (hany90.mpr ⟨v, hv, by omega⟩)
      by_cases h7 : vs.any (fun v => decide (70 ≤ v.severity)) = true
      · rw [if_pos h7]
        refine ⟨fun h => absurd h hne, ?_, fun _ _ => rfl, ?_, ?_, ?_⟩
        · intro hex
          exact absurd (hany90.mpr hex) h9
        · intro _ hall
          obtain ⟨v, hv, h70⟩ := hany70.mp h7
          have := hall v hv
          omega
        · constructor
          · intro h
            exact absurd h (by decide)
          · intro hex
            exact absurd (hany90.mpr hex) h9
        · exact ⟨fun h => absurd h (by decide), fun h => absurd h hne⟩
      · rw [if_neg h7]
        refine ⟨fun h => absurd h hne, ?_, ?_, fun _ _ => rfl, ?_, ?_⟩
        · intro hex
          exact absurd (hany90.mpr hex) h9
        · intro _ hex
          exact absurd (hany70.mpr hex) h7
        · constructor
          · intro h
            exact absurd h (by decide)
          · intro hex
            exact absurd (hany90.mpr hex) h9
        · exact ⟨fun h => absurd h (by decide), fun h => absurd h hne⟩

theorem mem_ite_singleton {α : Type} {c : Prop} [Decidable c] {a v : α}
    (h : v ∈ (if c then [a] else ([] : List α))) : v = a := by
  split at h
  · simpa using h
  · simp at h

theorem detectViolations_types (input output : String) :
    ∀ v ∈ detectViolations input output,
      v.type = "illegal_activity" ∨ v.type = "violence" ∨ v.type = "gdpr" := by
  intro v hv
  simp only [detectViolations] at hv
  rcases List.mem_append.mp hv with h | h
  · rcases List.mem_append.mp h with h | h
    · rcases List.mem_append.mp h with h | h
      · have hva := mem_ite_singleton h
        subst hva
        exact Or.inl rfl
      · have hva := mem_ite_singleton h
        subst hva
        exact Or.inl rfl
    · have hva := mem_ite_singleton h
      subst hva
      exact Or.inr (Or.inl rfl)
  · have hva := mem_ite_singleton h
    subst hva
    exact Or.inr (Or.inr rfl)

theorem parseBasic_violation_types (response : RemoteResponse) :
    ∀ v ∈ (parseBasic response).violations, v.type = "compliance" := by
  intro v hv
  simp only [parseBasic] at hv
  have hva := mem_ite_singleton hv
  subst hva
  rfl

theorem mergeLocal_fst_of_disjoint (rvs : List Violation) (acts : List AgentAction)
    (ok : Bool) (ls : List Violation)
    (h : ∀ v ∈ ls, v.type ∉ rvs.map (fun w => w.type)) :
    (mergeLocal rvs acts ok ls).1 = rvs ++ ls := by
  unfold mergeLocal
  by_cases hl : 0 < ls.length
  · rw [if_pos hl]
    show rvs ++ ls.filter (fun v => !((rvs.map (fun w => w.type)).contains v.type)) =
      rvs ++ ls
    congr 1
    rw [List.filter_eq_self]
    intro v hv
    simpa using h v hv
  · rw [if_neg hl]
    have hnil : ls = [] := by
      cases ls with
      | nil => rfl
      | cons a l => exact absurd (by simp) hl
    rw [hnil, List.append_nil]

theorem processInteraction_violations_disabled (av : Bool)
    (rem : Except String InkeepResult) (input output : String) :
    (processInteraction false av rem input output).violations =
      detectViolations input output := by
  have h1 := processInteraction_violations false av rem input output
  rw [remotePhase_disabled av rem] at h1
  rw [h1]
  exact mergeLocal_no_remote_fst _ _ _

theorem finalizeStatus_rank_mono (rs ls : List Violation) :
    statusRank (finalizeStatus ls).1 ≤ statusRank (finalizeStatus (rs ++ ls)).1 ∧
    severityRank (finalizeStatus ls).2 ≤ severityRank (finalizeStatus (rs ++ ls)).2 := by
  cases ls with
  | nil => exact ⟨Nat.zero_le _, Nat.zero_le _⟩
  | cons a l =>
      have hne : ((a :: l : List Violation)).length ≠ 0 := by simp
      have hmne : ((rs ++ a :: l : List Violation)).length ≠ 0 := by simp
      by_cases h9 : (a :: l).any (fun v => decide (90 ≤ v.severity)) = true
      · have hm9 : (rs ++ a :: l).any (fun v => decide (90 ≤ v.severity)) = true := by
          rw [List.any_append]
          simp [h9]
        have h1 : finalizeStatus (a :: l) = ("blocked", "critical") := by
          unfold finalizeStatus
          rw [if_neg hne, if_pos h9]
        have h2 : finalizeStatus (rs ++ a :: l) = ("blocked", "critical") := by
          unfold finalizeStatus
          rw [if_neg hmne, if_pos hm9]
        rw [h1, h2]
        exact ⟨Nat.le_refl _, Nat.le_refl _⟩
      · by_cases h7 : (a :: l).any (fun v => decide (70 ≤ v.severity)) = true
        · have h1 : finalizeStatus (a :: l) = ("pending", "high") := by
            unfold finalizeStatus
            rw [if_neg hne, if_neg h9, if_pos h7]
          have hm7 : (rs ++ a :: l).any (fun v => decide (70 ≤ v.severity)) = true := by
            rw [List.any_append]
            simp [h7]
          rw [h1]
          by_cases hm9 : (rs ++ a :: l).any (fun v => decide (90 ≤ v.severity)) = true
          · have h2 : finalizeStatus (rs ++ a :: l) = ("blocked", "critical") := by
              unfold finalizeStatus
              rw [if_neg hmne, if_pos hm9]
            rw [h2]
            exact ⟨by decide, by decide⟩
          · have h2 : finalizeStatus (rs ++ a :: l) = ("pending", "high") := by
              unfold finalizeStatus
              rw [if_neg hmne, if_neg hm9, if_pos hm7]
            rw [h2]
            exact ⟨Nat.le_refl _, Nat.le_refl _⟩
        · have h1 : finalizeStatus (a :: l) = ("pending", "medium") := by
            unfold finalizeStatus
            rw [if_neg hne, if_neg h9, if_neg h7]
          rw [h1]
          by_cases hm9 : (rs ++ a :: l).any (fun v => decide (90 ≤ v.severity)) = true
          · have h2 : finalizeStatus (rs ++ a :: l) = ("blocked", "critical") := by
              unfold finalizeStatus
              rw [if_neg hmne, if_pos hm9]
            rw [h2]
            exact ⟨by decide, by decide⟩
          · by_cases hm7 : (rs ++ a :: l).any (fun v => decide (70 ≤ v.severity)) = true
            · have h2 : finalizeStatus (rs ++ a :: l) = ("pending", "high") := by
                unfold finalizeStatus
                rw [if_neg hmne, if_neg hm9, if_pos hm7]
              rw [h2]
              exact ⟨Nat.le_refl _, by decide⟩
            · have h2 : finalizeStatus (rs ++ a :: l) = ("pending", "medium") := by
                unfold finalizeStatus
                rw [if_neg hmne, if_neg hm9, if_neg hm7]
              rw [h2]
              exact ⟨Nat.le_refl _, Nat.le_refl _⟩

theorem isInfix_of_eq_append (a b c s : String) (h : s = a ++ (b ++ c)) :
    List.IsInfix b.data s.data := by
  subst h
  refine ⟨a.data, c.data, ?_⟩
  simp [String.data_append, List.append_assoc]

/-!
## Claim theorems
-/

/-- C1: the finalized status and severity of a processed Interaction follow
the fixed first-match escalation rules over its merged violation set:
empty gives approved/low; some violation with severity at least 9 (90 in
tenths) gives blocked/critical; otherwise some violation with severity at
least 7 (70 in tenths) gives pending/high; otherwise pending/medium.
Moreover status is blocked iff some violation has severity at least 9, and
approved iff the set is empty. -/
theorem interaction_escalation (ua av : Bool) (rem : Except String InkeepResult)
    (input output : String) :
    ((processInteraction ua av rem input output).violations = [] →
        (processInteraction ua av rem input output).status = "approved" ∧
        (processInteraction ua av rem input output).severity = "low") ∧
    ((∃ v ∈ (processInteraction ua av rem input output).violations, 90 ≤ v.severity) →
        (processInteraction ua av rem input output).status = "blocked" ∧
        (processInteraction ua av rem input output).severity = "critical") ∧
    ((∀ v ∈ (processInteraction ua av rem input output).violations, v.severity < 90) →
        (∃ v ∈ (processInteraction ua av rem input output).violations, 70 ≤ v.severity) →
        (processInteraction ua av rem input output).status = "pending" ∧
        (processInteraction ua av rem input output).severity = "high") ∧
    ((processInteraction ua av rem input output).violations ≠ [] →
        (∀ v ∈ (processInteraction ua av rem input output).violations, v.severity < 70) →
        (processInteraction ua av rem input output).status = "pending" ∧
        (processInteraction ua av rem input output).severity = "medium") ∧
    ((processInteraction ua av rem input output).status = "blocked" ↔
        ∃ v ∈ (processInteraction ua av rem input output).violations, 90 ≤ v.severity) ∧
    ((processInteraction ua av rem input output).status = "approved" ↔
        (processInteraction ua av rem input output).violations = []) := by
  have hs : (processInteraction ua av rem input output).status =
      (finalizeStatus (processInteraction ua av rem input output).violations).1 := by
    rw [processInteraction_status ua av rem input output,
        processInteraction_violations ua av rem input output]
  have hv : (processInteraction ua av rem input output).severity =
      (finalizeStatus (processInteraction ua av rem input output).violations).2 := by
    rw [processInteraction_severity ua av rem input output,
        processInteraction_violations ua av rem input output]
  obtain ⟨h1, h2, h3, h4, h5, h6⟩ :=
    finalizeStatus_spec (processInteraction ua av rem input output).violations
  refine ⟨?_, ?_, ?_, ?_, ?_, ?_⟩
  · intro h
    rw [hs, hv, h1 h]
    exact ⟨rfl, rfl⟩
  · intro h
    rw [hs, hv, h2 h]
    exact ⟨rfl, rfl⟩
  · intro ha hb
    rw [hs, hv, h3 ha hb]
    exact ⟨rfl, rfl⟩
  · intro ha hb
    rw [hs, hv, h4 ha hb]
    exact ⟨rfl, rfl⟩
  · rw [hs]
    exact h5
  · rw [hs]
    exact h6

/-- Witness for C1: an input hitting no pattern yields an approved result. -/
theorem interaction_escalation_witness :
    (processInteraction false false (Except.error "") "What is the weather today?"
        "Sunny.").status = "approved" := by
  have h := interaction_escalation false false (Except.error "")
    "What is the weather today?" "Sunny."
  exact h.2.2.2.2.2.mpr (by decide)

/-- C2: with the remote tier disabled (`useInkeepAgents` false, hence
`useInkeep` false), the returned violations are exactly the local pattern
detector output on the same input/output, and status/severity follow
deterministically from that set by the escalation rules. -/
theorem local_only_matches_detector (av : Bool) (rem : Except String InkeepResult)
    (input output : String) :
    (processInteraction false av rem input output).violations =
      detectViolations input output ∧
    ((processInteraction false av rem input output).status,
     (processInteraction false av rem input output).severity) =
      finalizeStatus (detectViolations input output) := by
  have h1 := processInteraction_violations false av rem input output
  rw [remotePhase_disabled av rem] at h1
  have hviol : (processInteraction false av rem input output).violations =
      detectViolations input output := by
    rw [h1]
    exact mergeLocal_no_remote_fst _ _ _
  refine ⟨hviol, ?_⟩
  have h2 := processInteraction_finalize false av rem input output
  rw [hviol] at h2
  exact h2

/-- C3: whatever the remote-tier configuration and remote outcome, the
local pattern detector runs on the same input/output, and every locally
detected violation whose type is not among the remote-sourced violation
types appears in the returned violations. -/
theorem local_detector_backstop (ua av : Bool) (rem : Except String InkeepResult)
    (input output : String) (v : Violation)
    (hv : v ∈ detectViolations input output)
    (ht : v.type ∉ (remotePhase (ua && av) rem).1.map (fun w => w.type)) :
    v ∈ (processInteraction ua av rem input output).violations := by
  rw [processInteraction_violations]
  unfold mergeLocal
  have hlen : 0 < (detectViolations input output).length :=
    List.length_pos.mpr (List.ne_nil_of_mem hv)
  rw [if_pos hlen]
  refine List.mem_append.mpr (Or.inr ?_)
  refine List.mem_filter.mpr ⟨hv, ?_⟩
  simpa using ht

/-- Witness for C3: the locally detected WiFi violation survives a merge
with a remote result of a different type. -/
theorem local_detector_backstop_witness :
    wifiHackingViolation ∈ detectViolations wifiScenarioInput "I cannot help with that." ∧
    wifiHackingViolation ∈ (processInteraction true true (Except.ok demoComplianceRemote)
        wifiScenarioInput "I cannot help with that.").violations := by
  refine ⟨by decide, ?_⟩
  exact local_detector_backstop true true (Except.ok demoComplianceRemote)
    wifiScenarioInput "I cannot help with that." wifiHackingViolation
    (by decide) (by decide)

/-- C4: when the remote client throws on every call (and the remote tier is
in use), processInteraction records exactly one error AgentAction carrying
the failure message, still returns exactly the local-only violations, and
finalizes status/severity from them; the embedding is a total function, so
no exception escapes. -/
theorem remote_failure_isolated (msg input output : String) :
    (processInteraction true true (Except.error msg) input output).agentActions.filter
        (fun a => a.action == "error") =
      [{ agentName := "InkeepGovernance", action := "error",
         details := "Inkeep error: " ++ msg }] ∧
    (processInteraction true true (Except.error msg) input output).violations =
      detectViolations input output ∧
    ((processInteraction true true (Except.error msg) input output).status,
     (processInteraction true true (Except.error msg) input output).severity) =
      finalizeStatus (detectViolations input output) := by
  have hrp : remotePhase (true && true) (Except.error msg) =
      ([], [{ agentName := "InkeepGovernance", action := "error",
              details := "Inkeep error: " ++ msg }], false) := rfl
  have hviol : (processInteraction true true (Except.error msg) input output).violations =
      detectViolations input output := by
    rw [processInteraction_violations, hrp]
    exact mergeLocal_no_remote_fst _ _ _
  refine ⟨?_, hviol, ?_⟩
  · rw [processInteraction_actions, hrp]
    unfold mergeLocal
    by_cases h : 0 < (detectViolations input output).length
    · simp only [if_pos h]
      rfl
    · simp only [if_neg h]
      rfl
  · have h2 := processInteraction_finalize true true (Except.error msg) input output
    rw [hviol] at h2
    exact h2

/-- C5: when a violation type is reported by the remote tier, the merged
violations keep exactly the remote entries of that type and never gain a
local entry of it: the merge appends only local violations whose type is
absent from the remote-sourced set, so if the remote result has exactly
one entry of the shared type, so does the merged result. -/
theorem dedup_remote_wins (r : InkeepResult) (input output : String) (t : String)
    (ht : t ∈ r.violations.map (fun v => v.type)) :
    (processInteraction true true (Except.ok r) input output).violations =
      r.violations ++ (detectViolations input output).filter
        (fun v => !((r.violations.map (fun w => w.type)).contains v.type)) ∧
    (processInteraction true true (Except.ok r) input output).violations.filter
        (fun v => v.type == t) = r.violations.filter (fun v => v.type == t) ∧
    ((r.violations.filter (fun v => v.type == t)).length = 1 →
      ((processInteraction true true (Except.ok r) input output).violations.filter
          (fun v => v.type == t)).length = 1) := by
  have hne : 0 < r.violations.length := by
    obtain ⟨v, hv, _⟩ := List.mem_map.mp ht
    exact List.length_pos.mpr (List.ne_nil_of_mem hv)
  have hrp : remotePhase (true && true) (Except.ok r) =
      (r.violations, r.agentActions, true) := by
    simp [remotePhase, if_pos hne]
  have hmain : (processInteraction true true (Except.ok r) input output).violations =
      r.violations ++ (detectViolations input output).filter
        (fun v => !((r.violations.map (fun w => w.type)).contains v.type)) := by
    rw [processInteraction_violations, hrp]
    unfold mergeLocal
    by_cases h : 0 < (detectViolations input output).length
    · rw [if_pos h]
    · rw [if_neg h]
      have hnil : detectViolations input output = [] := by
        cases hd : detectViolations input output with
        | nil => rfl
        | cons a l =>
            rw [hd] at h
            exact absurd (by simp) h
      rw [hnil]
      simp
  have hempty : (((detectViolations input output).filter
      (fun v => !((r.violations.map (fun w => w.type)).contains v.type))).filter
      (fun v => v.type == t)) = [] := by
    rw [List.filter_eq_nil_iff]
    intro v hvmem hbt
    have hp := (List.mem_filter.mp hvmem).2
    have hvt : v.type = t := by simpa using hbt
    rw [hvt] at hp
    simp at hp
    obtain ⟨w, hw, hwt⟩ := List.mem_map.mp ht
    exact hp w hw hwt
  have hfilter : (processInteraction true true (Except.ok r) input output).violations.filter
      (fun v => v.type == t) = r.violations.filter (fun v => v.type == t) := by
    rw [hmain, List.filter_append, hempty, List.append_nil]
  refine ⟨hmain, hfilter, ?_⟩
  intro h1
  rw [hfilter, h1]

/-- Witness for C5: both tiers report illegal_activity on the WiFi
scenario and the merged result keeps exactly the remote entry. -/
theorem dedup_remote_wins_witness :
    "illegal_activity" ∈ demoIllegalRemote.violations.map (fun v => v.type) ∧
    (processInteraction true true (Except.ok demoIllegalRemote) wifiScenarioInput
        "I cannot help with that.").violations.filter
        (fun v => v.type == "illegal_activity") =
      demoIllegalRemote.violations.filter (fun v => v.type == "illegal_activity") :=
  ⟨by decide, (dedup_remote_wins demoIllegalRemote wifiScenarioInput
      "I cannot help with that." "illegal_activity" (by decide)).2.1⟩

/-- C6: on the WiFi-hacking scenario input (with an innocuous output) and
the remote tier disabled, exactly one violation is returned, of type
illegal_activity with severity 9.0 (90 in tenths), and the Interaction is
finalized blocked/critical. -/
theorem wifi_scenario_blocked :
    (processInteraction false false (Except.error "") wifiScenarioInput
        "I cannot help with that.").violations = [wifiHackingViolation] ∧
    wifiHackingViolation.type = "illegal_activity" ∧
    wifiHackingViolation.severity = 90 ∧
    (processInteraction false false (Except.error "") wifiScenarioInput
        "I cannot help with that.").status = "blocked" ∧
    (processInteraction false false (Except.error "") wifiScenarioInput
        "I cannot help with that.").severity = "critical" := by
  decide

/-- C7: the basic parse of a remote response synthesizes exactly one
Violation iff the response content has a violation/blocked keyword; that
violation has severity 9 (90 in tenths) if a critical keyword is present
and 7 (70) otherwise, with confidence 0.85 (85 in hundredths); and the
parse produces exactly one AgentAction recording the coordinator decision
with the content truncated to 200 characters as detail. -/
theorem parseBasic_spec (response : RemoteResponse) :
    ((parseBasic response).violations.length = 1 ↔
        reTest violationKeywordRE (lowerJS (responseContent response)) = true) ∧
    ((parseBasic response).violations = [] ↔
        reTest violationKeywordRE (lowerJS (responseContent response)) = false) ∧
    (reTest violationKeywordRE (lowerJS (responseContent response)) = true →
        (parseBasic response).violations =
          [{ type := "compliance", description := "Detected by Inkeep",
             reason := "Inkeep analysis",
             severity := if reTest criticalKeywordRE (lowerJS (responseContent response))
                         then 90 else 70,
             confidence := 85, regulatoryFramework := none }]) ∧
    (parseBasic response).agentActions =
      [{ agentName := "InkeepGovernanceCoordinator",
         action := if reTest violationKeywordRE (lowerJS (responseContent response))
                   then "flag" else "approve",
         details := takeJS (responseContent response) 200 ++ "..." }] := by
  by_cases hv : reTest violationKeywordRE (lowerJS (responseContent response)) = true
  · refine ⟨?_, ?_, ?_, ?_⟩ <;> simp [parseBasic, hv]
  · have hv2 : reTest violationKeywordRE (lowerJS (responseContent response)) = false := by
      simpa using hv
    refine ⟨?_, ?_, ?_, ?_⟩ <;> simp [parseBasic, hv2]

/-- Witness for C7: a critical-flagged response yields the severity-9
compliance violation. -/
theorem parseBasic_spec_witness :
    (parseBasic demoCriticalResponse).violations =
      [{ type := "compliance", description := "Detected by Inkeep",
         reason := "Inkeep analysis", severity := 90, confidence := 85,
         regulatoryFramework := none }] := by
  have h := (parseBasic_spec demoCriticalResponse).2.2.1 (by decide)
  rw [h]
  decide

/-- C8 counterexample: the analysis request carries no three-component
tenant/project/graph identifier.  The body model field is the fixed
two-component LLM id, the graph-id header is the two-component
project/graph pair (each containing exactly one slash), and the header is
not the tenant-qualified identifier built from the configured tenant
(default), project (ethoslens) and graph. -/
theorem request_identifier_not_three_part :
    (processAdvancedGovernanceRequest "input" "output" none).model =
      "openai/gpt-4.1-2025-04-14" ∧
    (processAdvancedGovernanceRequest "input" "output" none).graphIdHeader =
      "ethoslens/governance-graph-advanced" ∧
    ((processAdvancedGovernanceRequest "input" "output" none).model.data.filter
        (fun c => c == Char.ofNat 47)).length = 1 ∧
    ((processAdvancedGovernanceRequest "input" "output" none).graphIdHeader.data.filter
        (fun c => c == Char.ofNat 47)).length = 1 ∧
    (processAdvancedGovernanceRequest "input" "output" none).graphIdHeader ≠
      "default/ethoslens/governance-graph-advanced" ∧
    (processAdvancedGovernanceRequest "input" "output" none).model ≠
      "default/ethoslens/governance-graph-advanced" := by
  decide

/-- C8 (amended): the analysis request posts to the chat-completions path
with the project/graph identifier ethoslens/governance-graph-advanced in
the x-inkeep-graph-id header and a fixed LLM model id in the body; its
system instruction enumerates the policy frameworks GDPR, EU AI Act,
FISMA, DSA and NIS2; and its user content embeds the input, the output
and, when present, the JSON-serialized context. -/
theorem request_shape (input output : String) (contextJson : Option String) :
    (processAdvancedGovernanceRequest input output contextJson).path =
      "/v1/chat/completions" ∧
    (processAdvancedGovernanceRequest input output contextJson).graphIdHeader =
      "ethoslens/governance-graph-advanced" ∧
    (processAdvancedGovernanceRequest input output contextJson).model =
      "openai/gpt-4.1-2025-04-14" ∧
    List.IsInfix "GDPR".data
      (processAdvancedGovernanceRequest input output contextJson).systemContent.data ∧
    List.IsInfix "EU AI Act".data
      (processAdvancedGovernanceRequest input output contextJson).systemContent.data ∧
    List.IsInfix "FISMA".data
      (processAdvancedGovernanceRequest input output contextJson).systemContent.data ∧
    List.IsInfix "DSA".data
      (processAdvancedGovernanceRequest input output contextJson).systemContent.data ∧
    List.IsInfix "NIS2".data
      (processAdvancedGovernanceRequest input output contextJson).systemContent.data ∧
    List.IsInfix input.data
      (processAdvancedGovernanceRequest input output contextJson).userContent.data ∧
    List.IsInfix output.data
      (processAdvancedGovernanceRequest input output contextJson).userContent.data ∧
    (∀ j, contextJson = some j →
      List.IsInfix ("CONTEXT: " ++ j).data
        (processAdvancedGovernanceRequest input output contextJson).userContent.data) := by
  refine ⟨rfl, rfl, rfl, ?_, ?_, ?_, ?_, ?_, ?_, ?_, ?_⟩
  · show List.IsInfix "GDPR".data governanceSystemContent.data
    decide
  · show List.IsInfix "EU AI Act".data governanceSystemContent.data
    decide
  · show List.IsInfix "FISMA".data governanceSystemContent.data
    decide
  · show List.IsInfix "DSA".data governanceSystemContent.data
    decide
  · show List.IsInfix "NIS2".data governanceSystemContent.data
    decide
  · cases contextJson with
    | none =>
        refine isInfix_of_eq_append userContentHead input
          (userContentAfterInput ++ output ++ userContentAfterOutput ++ "" ++
            userContentTail) _ ?_
        show governanceUserContent input output none = _
        simp [governanceUserContent, String.append_assoc]
    | some j =>
        refine isInfix_of_eq_append userContentHead input
          (userContentAfterInput ++ output ++ userContentAfterOutput ++
            ("CONTEXT: " ++ j) ++ userContentTail) _ ?_
        show governanceUserContent input output (some j) = _
        simp [governanceUserContent, String.append_assoc]
  · cases contextJson with
    | none =>
        refine isInfix_of_eq_append (userContentHead ++ input ++ userContentAfterInput)
          output (userContentAfterOutput ++ "" ++ userContentTail) _ ?_
        show governanceUserContent input output none = _
        simp [governanceUserContent, String.append_assoc]
    | some j =>
        refine isInfix_of_eq_append (userContentHead ++ input ++ userContentAfterInput)
          output (userContentAfterOutput ++ ("CONTEXT: " ++ j) ++ userContentTail) _ ?_
        show governanceUserContent input output (some j) = _
        simp [governanceUserContent, String.append_assoc]
  · intro j hj
    subst hj
    refine isInfix_of_eq_append
      (userContentHead ++ input ++ userContentAfterInput ++ output ++ userContentAfterOutput)
      ("CONTEXT: " ++ j) userContentTail _ ?_
    show governanceUserContent input output (some j) = _
    simp [governanceUserContent, String.append_assoc]

/-- Witness for C8: the context block appears in the user content when a
serialized context is supplied. -/
theorem request_shape_witness :
    List.IsInfix ("CONTEXT: " ++ "[1]").data
      (processAdvancedGovernanceRequest "a" "b" (some "[1]")).userContent.data :=
  (request_shape "a" "b" (some "[1]")).2.2.2.2.2.2.2.2.2.2 "[1]" rfl

/-- C9: the availability probe is a total boolean function of the enabled
flag and the observed probe event: it is false whenever the remote tier is
not enabled, false on URL-construction failure, network error, or timeout
(the configured probe timeout being 5000 ms), and true exactly when the
health response carries a success status code (2xx, including the no-body
204). -/
theorem isAvailable_spec (isEnabled : Bool) (ev : ProbeEvent) :
    (isEnabled = false → isAvailable isEnabled ev = false) ∧
    (∀ msg, isAvailable isEnabled (ProbeEvent.netError msg) = false) ∧
    isAvailable isEnabled ProbeEvent.respTimeout = false ∧
    isAvailable isEnabled ProbeEvent.badUrl = false ∧
    (isAvailable isEnabled ev = true ↔
      isEnabled = true ∧ ∃ code, ev = ProbeEvent.response code ∧ 200 ≤ code ∧ code < 300) ∧
    healthCheckTimeoutMs = 5000 := by
  refine ⟨?_, ?_, ?_, ?_, ?_, rfl⟩
  · intro h
    subst h
    rfl
  · intro msg
    cases isEnabled <;> rfl
  · cases isEnabled <;> rfl
  · cases isEnabled <;> rfl
  · cases isEnabled with
    | false => simp [isAvailable]
    | true =>
        cases ev with
        | badUrl => simp [isAvailable]
        | netError m => simp [isAvailable]
        | respTimeout => simp [isAvailable]
        | response code =>
            simp [isAvailable]
            omega

/-- Witness for C9: an enabled probe answered with a 204 resolves true. -/
theorem isAvailable_spec_witness :
    isAvailable true (ProbeEvent.response 204) = true :=
  (isAvailable_spec true (ProbeEvent.response 204)).2.2.2.2.1.mpr
    ⟨rfl, 204, rfl, by decide, by decide⟩

/-- C10: the remote parser only synthesizes violations of type compliance,
the local detector only produces types illegal_activity, violence and
gdpr, and these sets are disjoint, so the type-based dedup never drops a
local violation: under every remote outcome whose violations came from the
remote parse, the returned Interaction contains every locally detected
violation and its finalized status and severity rank at least as high as
those of a local-only evaluation of the same input/output. -/
theorem remote_local_disjoint_backstop :
    (∀ response, ∀ v ∈ (parseAdvanced response).toInkeepResult.violations,
        v.type = "compliance") ∧
    (∀ input output, ∀ v ∈ detectViolations input output,
        v.type = "illegal_activity" ∨ v.type = "violence" ∨ v.type = "gdpr") ∧
    (∀ (ua av : Bool) (rem : Except String InkeepResult) (input output : String),
      (∀ w ∈ (remotePhase (ua && av) rem).1, w.type = "compliance") →
      (∀ v ∈ detectViolations input output,
          v ∈ (processInteraction ua av rem input output).violations) ∧
      statusRank (processInteraction false false rem input output).status ≤
        statusRank (processInteraction ua av rem input output).status ∧
      severityRank (processInteraction false false rem input output).severity ≤
        severityRank (processInteraction ua av rem input output).severity) := by
  refine ⟨?_, detectViolations_types, ?_⟩
  · intro response v hv
    exact parseBasic_violation_types response v hv
  · intro ua av rem input output hrem
    have hdisj : ∀ v ∈ detectViolations input output,
        v.type ∉ (remotePhase (ua && av) rem).1.map (fun w => w.type) := by
      intro v hv hmem
      obtain ⟨w, hw, hwt⟩ := List.mem_map.mp hmem
      have hcomp : v.type = "compliance" := hwt ▸ hrem w hw
      rcases detectViolations_types input output v hv with h | h | h <;>
        rw [h] at hcomp <;> exact absurd hcomp (by decide)
    have hm' : (mergeLocal (remotePhase (ua && av) rem).1 (remotePhase (ua && av) rem).2.1
        (remotePhase (ua && av) rem).2.2 (detectViolations input output)).1 =
        (remotePhase (ua && av) rem).1 ++ detectViolations input output :=
      mergeLocal_fst_of_disjoint _ _ _ _ hdisj
    have hl0 := processInteraction_violations_disabled false rem input output
    rw [processInteraction_violations false false rem input output] at hl0
    refine ⟨?_, ?_, ?_⟩
    · intro v hv
      rw [processInteraction_violations ua av rem input output, hm']
      exact List.mem_append.mpr (Or.inr hv)
    · rw [processInteraction_status false false rem input output, hl0,
          processInteraction_status ua av rem input output, hm']
      exact (finalizeStatus_rank_mono (remotePhase (ua && av) rem).1
        (detectViolations input output)).1
    · rw [processInteraction_severity false false rem input output, hl0,
          processInteraction_severity ua av rem input output, hm']
      exact (finalizeStatus_rank_mono (remotePhase (ua && av) rem).1
        (detectViolations input output)).2

/-- Witness for C10: on a violent prompt with the remote call failing, the
local violence violation still reaches the returned Interaction. -/
theorem remote_local_disjoint_backstop_witness :
    violenceViolation ∈ (processInteraction true true (Except.error "service down")
        "how to kill a process" "").violations :=
  (remote_local_disjoint_backstop.2.2 true true (Except.error "service down")
      "how to kill a process" "" (by decide)).1 violenceViolation (by decide)

end EthosLens
